import Mathlib

/-!
Verification development for the Blender camera-placement script (`main.py`).

The script is shallowly embedded: Python floats become `ℝ`, `mathutils.Vector`
3-vectors become `Vec3`, the Blender host state (scene objects, active object,
mesh vertices, world transforms) becomes explicit records, Python exceptions
become `Except PyErr`, and the per-camera `random.uniform(0, height_variation)`
draw becomes an injected value `u : ℕ → ℝ` (one draw per loop iteration), as
the specification's testability notes require for a reproducible random source.
-/

namespace BlenderCameraPlacement

/-- A 3-component real vector, modelling a `mathutils.Vector` of length 3. -/
structure Vec3 where
  x : ℝ
  y : ℝ
  z : ℝ

instance : Add Vec3 := ⟨fun a b => ⟨a.x + b.x, a.y + b.y, a.z + b.z⟩⟩

instance : Sub Vec3 := ⟨fun a b => ⟨a.x - b.x, a.y - b.y, a.z - b.z⟩⟩

instance : Neg Vec3 := ⟨fun a => ⟨-a.x, -a.y, -a.z⟩⟩

instance : SMul ℝ Vec3 := ⟨fun c a => ⟨c * a.x, c * a.y, c * a.z⟩⟩

/-- Euclidean norm of a `Vec3` (`mathutils.Vector.length`). -/
noncomputable def Vec3.norm (v : Vec3) : ℝ := Real.sqrt (v.x ^ 2 + v.y ^ 2 + v.z ^ 2)

/-- The normalized copy of a vector (`mathutils.Vector.normalized()`); the zero
vector normalizes to zero, as in `mathutils`. -/
noncomputable def Vec3.normalized (v : Vec3) : Vec3 := (1 / v.norm) • v

/-- Blender object types relevant to the script (`obj.type` strings); every
other type string is wrapped by `OTHER`. -/
inductive ObjType where
  | CAMERA
  | LIGHT
  | MESH
  | OTHER (tag : String)
deriving DecidableEq

/-- One mesh vertex: its object-local coordinate (`v.co`) and its selection
flag (`v.select`). -/
structure Vertex where
  co : Vec3
  select : Bool

/-- A Blender data object as the script reads it: its type, its mesh vertices
(meaningful when `type = MESH`), and its world transform `matrix_world`,
modelled as the map it applies to local coordinates (`matrix_world @ co`). -/
structure BObject where
  type : ObjType
  vertices : List Vertex
  matrixWorld : Vec3 → Vec3

/-- The Blender host state the look-at resolver queries: the name-keyed object
collection `bpy.data.objects` and the active object `bpy.context.active_object`. -/
structure Host where
  objects : List (String × BObject)
  activeObject : Option BObject

/-- `bpy.data.objects.get(name)`: first object stored under the given name, if any. -/
def objectsGet : List (String × BObject) → String → Option BObject
  | [], _ => none
  | (n, o) :: rest, s => if n = s then some o else objectsGet rest s

/-- Python exceptions raised by the script: `ValueError` and `TypeError`. -/
inductive PyErr where
  | valueError (msg : String)
  | typeError (msg : String)

/-- `get_vertex_world_coordinate(obj_name, vertex_index)`: fetch the object by
name, require it to be a mesh, require the index in range, and return the world
coordinate of the indexed vertex; each failure raises a `ValueError`. -/
def get_vertex_world_coordinate (host : Host) (obj_name : String)
    (vertex_index : ℤ) : Except PyErr Vec3 :=
  match objectsGet host.objects obj_name with
  | none => .error (.valueError "Object not found.")
  | some obj =>
    if obj.type ≠ ObjType.MESH then
      .error (.valueError "Object is not a mesh.")
    else if vertex_index < 0 ∨ (obj.vertices.length : ℤ) ≤ vertex_index then
      .error (.valueError "Vertex index out of range for object.")
    else
      .ok (obj.matrixWorld ((obj.vertices.getD vertex_index.toNat ⟨⟨0, 0, 0⟩, false⟩).co))

/-- `get_selected_vertex_world_coordinate()`: require an active mesh object
(`TypeError` otherwise), require at least one selected vertex (`ValueError`
otherwise), and return the world coordinate of the first selected vertex. -/
def get_selected_vertex_world_coordinate (host : Host) : Except PyErr Vec3 :=
  match host.activeObject with
  | none => .error (.typeError "Active object is not a mesh or no active object found.")
  | some active_obj =>
    if active_obj.type ≠ ObjType.MESH then
      .error (.typeError "Active object is not a mesh or no active object found.")
    else
      match active_obj.vertices.filter (fun v => v.select) with
      | [] => .error (.valueError "No vertices are selected.")
      | v :: _ => .ok (active_obj.matrixWorld v.co)

/-- The parsed command-line configuration (`argparse.Namespace` fields the
script reads). `object_name` and `vertex_index` default to `None`. -/
structure Config where
  num_cameras : ℤ
  radius : ℝ
  base_height : ℝ
  height_variation : ℝ
  look_at_x : ℝ
  look_at_y : ℝ
  look_at_z : ℝ
  use_selected_vertex : Bool
  object_name : Option String
  vertex_index : Option ℤ
  light_energy : ℝ
  light_offset : ℝ
  clean_scene : Bool

/-- Python truthiness of the optional string `args.object_name`: `None` and the
empty string are falsy. -/
def truthyName : Option String → Bool
  | none => false
  | some s => s ≠ ""

/-- The second and third steps of `determine_look_at_point`: when
`args.object_name` is truthy and `args.vertex_index is not None`, try the
named vertex, catching only `ValueError` (a `TypeError` would propagate);
otherwise return the explicit `(look_at_x, look_at_y, look_at_z)`. -/
def lookAtFallback (cfg : Config) (host : Host) : Except PyErr Vec3 :=
  if truthyName cfg.object_name ∧ cfg.vertex_index ≠ none then
    match get_vertex_world_coordinate host (cfg.object_name.getD "")
        (cfg.vertex_index.getD 0) with
    | .ok p => .ok p
    | .error (.valueError _) =>
        .ok ⟨cfg.look_at_x, cfg.look_at_y, cfg.look_at_z⟩
    | .error (.typeError m) => .error (.typeError m)
  else
    .ok ⟨cfg.look_at_x, cfg.look_at_y, cfg.look_at_z⟩

/-- `determine_look_at_point(args)`: try the selected vertex (catching
`ValueError` and `TypeError`), then fall through to `lookAtFallback`. An
uncaught exception would propagate to the caller. -/
def determine_look_at_point (cfg : Config) (host : Host) : Except PyErr Vec3 :=
  if cfg.use_selected_vertex then
    match get_selected_vertex_world_coordinate host with
    | .ok p => .ok p
    | .error _ => lookAtFallback cfg host
  else
    lookAtFallback cfg host

/-- A scene object as the script creates or removes it: its name, its type,
its `location`, the tracked direction its rotation was built from (for cameras:
the vector `look_at - location` handed to `to_track_quat`; zero for everything
else), its light energy (meaningful for lights), and its parent's name. -/
structure SceneObj where
  name : String
  type : ObjType
  location : Vec3
  trackDir : Vec3
  energy : ℝ
  parent : Option String

/-- `clean_scene()`: remove every camera-type and light-type object from the
scene, leaving all other objects in place. -/
def clean_scene (scene : List SceneObj) : List SceneObj :=
  scene.filter (fun o => ¬(o.type = ObjType.CAMERA ∨ o.type = ObjType.LIGHT))

/-- The camera location computed at the top of `add_camera_and_light`:
`x = radius * cos(angle)`, `y = radius * sin(angle)`,
`z = base_height + u` where `u` is the drawn `random.uniform(0, height_variation)`. -/
noncomputable def cameraLocation (angle radius base_height u : ℝ) : Vec3 :=
  ⟨radius * Real.cos angle, radius * Real.sin angle, base_height + u⟩

/-- The world-space image of the camera's local `+Z` axis after
`cam.rotation_euler = direction.to_track_quat('-Z', 'Y').to_euler()`:
the track construction rotates the local `-Z` axis onto the normalized
direction, so the local `+Z` axis maps to its negation. This is what
`cam.matrix_world.to_quaternion() @ Vector((0, 0, 1))` evaluates to. -/
noncomputable def trackQuatLocalZWorld (direction : Vec3) : Vec3 :=
  -direction.normalized

/-- The camera's forward (view) axis in world space: a Blender camera faces
along its local `-Z` axis, which the track construction aligns with the
normalized direction toward the look-at point. -/
noncomputable def cameraForwardWorld (direction : Vec3) : Vec3 :=
  direction.normalized

/-- `add_camera_and_light(index, angle, radius, base_height, height_variation,
look_at, light_energy, light_offset)`: compute the camera location, create the
camera named `Camera_<index>` tracked toward `look_at`, then create the point
light named `Light_<index>` with the configured energy, parented to the
camera, at `cam.location + cam.matrix_world.to_quaternion() @
Vector((0, 0, light_offset))`. The random draw `u` stands for
`random.uniform(0, height_variation)`. -/
noncomputable def add_camera_and_light (index : ℕ) (angle radius base_height : ℝ)
    (height_variation : ℝ) (u : ℝ) (look_at : Vec3)
    (light_energy light_offset : ℝ) : SceneObj × SceneObj :=
  let camPos := cameraLocation angle radius base_height u
  let direction := look_at - camPos
  let cam : SceneObj :=
    { name := "Camera_" ++ toString index
      type := ObjType.CAMERA
      location := camPos
      trackDir := direction
      energy := 0
      parent := none }
  let light : SceneObj :=
    { name := "Light_" ++ toString index
      type := ObjType.LIGHT
      location := camPos + light_offset • trackQuatLocalZWorld direction
      trackDir := ⟨0, 0, 0⟩
      energy := light_energy
      parent := some cam.name }
  (cam, light)

/-- Python's `range(n)` over an `int` that may be negative: empty for `n ≤ 0`. -/
def pyRange (n : ℤ) : List ℕ := List.range n.toNat

/-- The angle computed in the loop body of `main`:
`angle = i * (2 * math.pi / num_cameras)` for the 0-based loop variable `i`. -/
noncomputable def camAngle (num_cameras : ℤ) (i : ℕ) : ℝ :=
  (i : ℝ) * (2 * Real.pi / (num_cameras : ℝ))

/-- The camera/light pairs planned by the loop in `main`, in creation order:
iteration `i` calls `add_camera_and_light` with `index = i + 1` and
`angle = i * (2π / num_cameras)`. -/
noncomputable def plannedPairs (num_cameras : ℤ) (radius base_height : ℝ)
    (height_variation : ℝ) (u : ℕ → ℝ) (look_at : Vec3)
    (light_energy light_offset : ℝ) : List (SceneObj × SceneObj) :=
  (pyRange num_cameras).map fun i =>
    add_camera_and_light (i + 1) (camAngle num_cameras i) radius base_height
      height_variation (u i) look_at light_energy light_offset

/-- The scene objects appended by the loop in `main`: each iteration adds its
camera and then its light. -/
noncomputable def newObjects (num_cameras : ℤ) (radius base_height : ℝ)
    (height_variation : ℝ) (u : ℕ → ℝ) (look_at : Vec3)
    (light_energy light_offset : ℝ) : List SceneObj :=
  (plannedPairs num_cameras radius base_height height_variation u look_at
      light_energy light_offset).flatMap fun pr => [pr.1, pr.2]

/-- `main(args)` after argument parsing: resolve the look-at point (an
exception there would propagate), clean the scene when requested, then run the
placement loop. The scene is modelled as the list of its objects; `u i` is the
random height draw of iteration `i`. -/
noncomputable def main (cfg : Config) (u : ℕ → ℝ) (host : Host)
    (scene : List SceneObj) : Except PyErr (List SceneObj) :=
  (determine_look_at_point cfg host).map fun look_at =>
    (if cfg.clean_scene then clean_scene scene else scene) ++
      newObjects cfg.num_cameras cfg.radius cfg.base_height
        cfg.height_variation u look_at cfg.light_energy cfg.light_offset

/-- The number of scene objects of a given type (used to state the camera and
light counts a run leaves behind). -/
def countType (t : ObjType) (scene : List SceneObj) : ℕ :=
  (scene.filter (fun o => o.type = t)).length

/-- Concrete fixture: a mesh object with one unselected vertex at `(1, 2, 3)`
and the identity world transform, for instantiating the theorems. -/
def meshC : BObject :=
  { type := ObjType.MESH
    vertices := [{ co := ⟨1, 2, 3⟩, select := false }]
    matrixWorld := fun v => v }

/-- Concrete fixture: a host holding only the mesh `"C"`, with no active object. -/
def hostC : Host :=
  { objects := [("C", meshC)], activeObject := none }

/-- Concrete fixture: a configuration naming the mesh `"C"` and vertex `0` as
the look-at source, with two cameras and `clean_scene` set. -/
def cfgNamed : Config :=
  { num_cameras := 2
    radius := 1
    base_height := 0
    height_variation := 0
    look_at_x := 9
    look_at_y := 9
    look_at_z := 9
    use_selected_vertex := false
    object_name := some "C"
    vertex_index := some 0
    light_energy := 1000
    light_offset := 2
    clean_scene := true }

/-- Concrete fixture: the same configuration with `num_cameras = 0`. -/
def cfg0 : Config := { cfgNamed with num_cameras := 0 }

/-- Concrete fixture: the same configuration with `num_cameras = -5`. -/
def cfgNeg : Config := { cfgNamed with num_cameras := -5 }

/-- Concrete fixture: a pre-existing camera object. -/
def sceneCam : SceneObj :=
  { name := "OldCamera"
    type := ObjType.CAMERA
    location := ⟨0, 0, 0⟩
    trackDir := ⟨0, 0, 0⟩
    energy := 0
    parent := none }

/-- Concrete fixture: a pre-existing mesh object (neither camera nor light). -/
def sceneMesh : SceneObj :=
  { name := "Cube"
    type := ObjType.MESH
    location := ⟨4, 5, 6⟩
    trackDir := ⟨0, 0, 0⟩
    energy := 0
    parent := none }

/-! Theorems. -/

theorem Vec3.smul_def (c : ℝ) (a : Vec3) : c • a = ⟨c * a.x, c * a.y, c * a.z⟩ := rfl

theorem Vec3.add_def (a b : Vec3) : a + b = ⟨a.x + b.x, a.y + b.y, a.z + b.z⟩ := rfl

theorem Vec3.sub_def (a b : Vec3) : a - b = ⟨a.x - b.x, a.y - b.y, a.z - b.z⟩ := rfl

theorem Vec3.neg_def (a : Vec3) : -a = ⟨-a.x, -a.y, -a.z⟩ := rfl

/-- Every failure of `get_vertex_world_coordinate` is a `ValueError`: the
`except ValueError` in `determine_look_at_point` catches everything it can raise. -/
theorem get_vertex_world_coordinate_not_typeError (host : Host) (s : String)
    (k : ℤ) (m : String) :
    get_vertex_world_coordinate host s k ≠ Except.error (PyErr.typeError m) := by
  unfold get_vertex_world_coordinate
  cases objectsGet host.objects s with
  | none => simp
  | some obj =>
    by_cases h1 : obj.type ≠ ObjType.MESH
    · simp [h1]
    · by_cases h2 : k < 0 ∨ (obj.vertices.length : ℤ) ≤ k
      · simp [h1, h2]
      · simp [h1, h2]

/-- The fallback chain of `determine_look_at_point` always succeeds. -/
theorem lookAtFallback_ok (cfg : Config) (host : Host) :
    ∃ p, lookAtFallback cfg host = Except.ok p := by
  unfold lookAtFallback
  by_cases hc : truthyName cfg.object_name ∧ cfg.vertex_index ≠ none
  · rw [if_pos hc]
    cases hV : get_vertex_world_coordinate host (cfg.object_name.getD "")
        (cfg.vertex_index.getD 0) with
    | ok p => exact ⟨p, rfl⟩
    | error e =>
      cases e with
      | valueError m => exact ⟨_, rfl⟩
      | typeError m =>
        exact absurd hV (get_vertex_world_coordinate_not_typeError host _ _ m)
  · rw [if_neg hc]
    exact ⟨_, rfl⟩

/-- `determine_look_at_point` always succeeds. -/
theorem determine_look_at_point_ok (cfg : Config) (host : Host) :
    ∃ p, determine_look_at_point cfg host = Except.ok p := by
  unfold determine_look_at_point
  by_cases hs : cfg.use_selected_vertex = true
  · rw [if_pos hs]
    cases hSel : get_selected_vertex_world_coordinate host with
    | ok p => exact ⟨p, rfl⟩
    | error e => exact lookAtFallback_ok cfg host
  · rw [if_neg hs]
    exact lookAtFallback_ok cfg host

/-- C3: look-at resolution never raises an exception to its caller: for every
configuration and host state — including the absence of an active object, a
non-mesh active object, no selected vertex, a missing named object, and an
out-of-range vertex index — `determine_look_at_point` falls through its
priority chain and returns a point. -/
theorem c3_look_at_never_raises (cfg : Config) (host : Host) :
    ∃ p, determine_look_at_point cfg host = Except.ok p :=
  determine_look_at_point_ok cfg host

/-- A successful name lookup finds a pair of the collection with that name. -/
theorem objectsGet_mem (l : List (String × BObject)) (s : String) (obj : BObject)
    (h : objectsGet l s = some obj) : ∃ pr ∈ l, pr.1 = s := by
  induction l with
  | nil => simp [objectsGet] at h
  | cons hd tl ih =>
    unfold objectsGet at h
    by_cases he : hd.1 = s
    · exact ⟨hd, List.mem_cons_self hd tl, he⟩
    · rw [if_neg he] at h
      obtain ⟨pr, hm, hp⟩ := ih h
      exact ⟨pr, List.mem_cons_of_mem hd hm, hp⟩

/-- In a host whose objects all carry nonempty names (as Blender guarantees),
a name that resolves to a vertex is nonempty, hence truthy in Python. -/
theorem get_vertex_ok_name_ne_empty (host : Host) (s : String) (k : ℤ) (q : Vec3)
    (hwf : ∀ pr ∈ host.objects, pr.1 ≠ "")
    (h : get_vertex_world_coordinate host s k = Except.ok q) : s ≠ "" := by
  unfold get_vertex_world_coordinate at h
  cases hg : objectsGet host.objects s with
  | none => rw [hg] at h; exact absurd h (by simp)
  | some obj =>
    obtain ⟨pr, hm, hp⟩ := objectsGet_mem host.objects s obj hg
    exact hp ▸ hwf pr hm

/-- When the selected-vertex source is disabled or fails, resolution reduces
to the fallback chain. -/
theorem determine_eq_fallback (cfg : Config) (host : Host)
    (h : cfg.use_selected_vertex = false ∨
      ∀ p, get_selected_vertex_world_coordinate host ≠ Except.ok p) :
    determine_look_at_point cfg host = lookAtFallback cfg host := by
  unfold determine_look_at_point
  by_cases hs : cfg.use_selected_vertex = true
  · rw [if_pos hs]
    cases hSel : get_selected_vertex_world_coordinate host with
    | ok p =>
      rcases h with h | h
      · rw [hs] at h; exact absurd h (by simp)
      · exact absurd hSel (h p)
    | error e => rfl
  · rw [if_neg hs]

/-- The fallback chain returns the named vertex when the named source resolves. -/
theorem lookAtFallback_named (cfg : Config) (host : Host) (s : String) (k : ℤ)
    (q : Vec3) (hwf : ∀ pr ∈ host.objects, pr.1 ≠ "")
    (hObj : cfg.object_name = some s) (hIdx : cfg.vertex_index = some k)
    (hV : get_vertex_world_coordinate host s k = Except.ok q) :
    lookAtFallback cfg host = Except.ok q := by
  have hs : s ≠ "" := get_vertex_ok_name_ne_empty host s k q hwf hV
  unfold lookAtFallback
  simp only [hObj, hIdx, Option.getD_some]
  rw [if_pos (by simp [truthyName, hs])]
  rw [hV]

/-- The fallback chain returns the explicit coordinates when the named source
is absent or fails to resolve. -/
theorem lookAtFallback_explicit (cfg : Config) (host : Host)
    (h : cfg.object_name = none ∨ cfg.vertex_index = none ∨
      ∀ s k q, cfg.object_name = some s → cfg.vertex_index = some k →
        get_vertex_world_coordinate host s k ≠ Except.ok q) :
    lookAtFallback cfg host =
      Except.ok ⟨cfg.look_at_x, cfg.look_at_y, cfg.look_at_z⟩ := by
  unfold lookAtFallback
  rcases h with h | h | h
  · rw [if_neg (by simp [h, truthyName])]
  · rw [if_neg (by simp [h])]
  · by_cases hc : truthyName cfg.object_name ∧ cfg.vertex_index ≠ none
    · rw [if_pos hc]
      obtain ⟨h1, h2⟩ := hc
      cases hObj : cfg.object_name with
      | none => rw [hObj] at h1; exact absurd h1 (by simp [truthyName])
      | some s =>
        cases hIdx : cfg.vertex_index with
        | none => exact absurd hIdx h2
        | some k =>
          simp only [hObj, hIdx, Option.getD_some]
          cases hV : get_vertex_world_coordinate host s k with
          | ok q => exact absurd hV (h s k q hObj hIdx)
          | error e =>
            cases e with
            | valueError m => rfl
            | typeError m =>
              exact absurd hV
                (get_vertex_world_coordinate_not_typeError host s k m)
    · rw [if_neg hc]

/-- C2: the look-at point resolution follows the strict priority chain: an
enabled and valid selected-vertex source wins; otherwise a supplied and
resolving named object + vertex index wins; otherwise the explicit
`(look_at_x, look_at_y, look_at_z)` coordinates are returned. The host
hypothesis records that Blender objects always carry nonempty names. -/
theorem c2_look_at_priority (cfg : Config) (host : Host)
    (hwf : ∀ pr ∈ host.objects, pr.1 ≠ "") :
    (∀ p, cfg.use_selected_vertex = true →
        get_selected_vertex_world_coordinate host = Except.ok p →
        determine_look_at_point cfg host = Except.ok p)
    ∧ (∀ s k q, (cfg.use_selected_vertex = false ∨
          ∀ p, get_selected_vertex_world_coordinate host ≠ Except.ok p) →
        cfg.object_name = some s → cfg.vertex_index = some k →
        get_vertex_world_coordinate host s k = Except.ok q →
        determine_look_at_point cfg host = Except.ok q)
    ∧ ((cfg.use_selected_vertex = false ∨
          ∀ p, get_selected_vertex_world_coordinate host ≠ Except.ok p) →
       (cfg.object_name = none ∨ cfg.vertex_index = none ∨
          ∀ s k q, cfg.object_name = some s → cfg.vertex_index = some k →
            get_vertex_world_coordinate host s k ≠ Except.ok q) →
       determine_look_at_point cfg host =
         Except.ok ⟨cfg.look_at_x, cfg.look_at_y, cfg.look_at_z⟩) := by
  refine ⟨fun p hs hSel => ?_, fun s k q hNoSel hObj hIdx hV => ?_,
    fun hNoSel hNoNamed => ?_⟩
  · unfold determine_look_at_point
    rw [if_pos hs, hSel]
  · rw [determine_eq_fallback cfg host hNoSel]
    exact lookAtFallback_named cfg host s k q hwf hObj hIdx hV
  · rw [determine_eq_fallback cfg host hNoSel]
    exact lookAtFallback_explicit cfg host hNoNamed

/-- Witness for C2: with no selected-vertex source and the named source
resolving vertex `0` of mesh `"C"`, resolution returns that vertex. -/
theorem c2_look_at_priority_witness :
    determine_look_at_point cfgNamed hostC = Except.ok ⟨1, 2, 3⟩ :=
  (c2_look_at_priority cfgNamed hostC (by simp [hostC])).2.1 "C" 0 ⟨1, 2, 3⟩
    (Or.inl rfl) rfl rfl rfl

theorem add_camera_fst_type (index : ℕ) (angle radius base_height : ℝ)
    (height_variation u : ℝ) (look_at : Vec3) (light_energy light_offset : ℝ) :
    (add_camera_and_light index angle radius base_height height_variation u
      look_at light_energy light_offset).1.type = ObjType.CAMERA := rfl

theorem add_camera_snd_type (index : ℕ) (angle radius base_height : ℝ)
    (height_variation u : ℝ) (look_at : Vec3) (light_energy light_offset : ℝ) :
    (add_camera_and_light index angle radius base_height height_variation u
      look_at light_energy light_offset).2.type = ObjType.LIGHT := rfl

theorem add_camera_fst_name (index : ℕ) (angle radius base_height : ℝ)
    (height_variation u : ℝ) (look_at : Vec3) (light_energy light_offset : ℝ) :
    (add_camera_and_light index angle radius base_height height_variation u
      look_at light_energy light_offset).1.name = "Camera_" ++ toString index := rfl

theorem add_camera_snd_name (index : ℕ) (angle radius base_height : ℝ)
    (height_variation u : ℝ) (look_at : Vec3) (light_energy light_offset : ℝ) :
    (add_camera_and_light index angle radius base_height height_variation u
      look_at light_energy light_offset).2.name = "Light_" ++ toString index := rfl

theorem add_camera_fst_location (index : ℕ) (angle radius base_height : ℝ)
    (height_variation u : ℝ) (look_at : Vec3) (light_energy light_offset : ℝ) :
    (add_camera_and_light index angle radius base_height height_variation u
        look_at light_energy light_offset).1.location =
      cameraLocation angle radius base_height u := rfl

theorem add_camera_snd_location (index : ℕ) (angle radius base_height : ℝ)
    (height_variation u : ℝ) (look_at : Vec3) (light_energy light_offset : ℝ) :
    (add_camera_and_light index angle radius base_height height_variation u
        look_at light_energy light_offset).2.location =
      cameraLocation angle radius base_height u +
        light_offset • trackQuatLocalZWorld
          (look_at - cameraLocation angle radius base_height u) := rfl

theorem add_camera_snd_energy (index : ℕ) (angle radius base_height : ℝ)
    (height_variation u : ℝ) (look_at : Vec3) (light_energy light_offset : ℝ) :
    (add_camera_and_light index angle radius base_height height_variation u
      look_at light_energy light_offset).2.energy = light_energy := rfl

theorem add_camera_snd_parent (index : ℕ) (angle radius base_height : ℝ)
    (height_variation u : ℝ) (look_at : Vec3) (light_energy light_offset : ℝ) :
    (add_camera_and_light index angle radius base_height height_variation u
        look_at light_energy light_offset).2.parent =
      some ("Camera_" ++ toString index) := rfl

/-- C1: for `count ≥ 1` the loop plans exactly `count` camera/light pairs; the
camera of 1-based index `i` sits at `(radius·cos((i−1)·2π/count),
radius·sin((i−1)·2π/count), base_height + u(i−1))` where `u(i−1)` is that
iteration's uniform draw from `[0, height_variation]`; and the planned angles
are strictly increasing and evenly spaced by `2π/count`. -/
theorem c1_ring_placement (num_cameras : ℤ) (hc : 1 ≤ num_cameras)
    (radius base_height height_variation : ℝ) (u : ℕ → ℝ)
    (hu : ∀ i, 0 ≤ u i ∧ u i ≤ height_variation) (look_at : Vec3)
    (light_energy light_offset : ℝ) :
    (plannedPairs num_cameras radius base_height height_variation u look_at
        light_energy light_offset).length = num_cameras.toNat
    ∧ (∀ i : ℕ, 1 ≤ i → (i : ℤ) ≤ num_cameras →
        ∃ pr, (plannedPairs num_cameras radius base_height height_variation u
            look_at light_energy light_offset)[i - 1]? = some pr ∧
          pr.1.location =
            ⟨radius * Real.cos (((i : ℝ) - 1) * (2 * Real.pi / (num_cameras : ℝ))),
             radius * Real.sin (((i : ℝ) - 1) * (2 * Real.pi / (num_cameras : ℝ))),
             base_height + u (i - 1)⟩)
    ∧ (∀ j l : ℕ, j < l → (l : ℤ) < num_cameras →
        camAngle num_cameras j < camAngle num_cameras l)
    ∧ (∀ j : ℕ, camAngle num_cameras (j + 1) - camAngle num_cameras j =
        2 * Real.pi / (num_cameras : ℝ)) := by
  refine ⟨?_, ?_, ?_, ?_⟩
  · simp [plannedPairs, pyRange]
  · intro i h1 h2
    have hlt : i - 1 < num_cameras.toNat := by omega
    have hg : (plannedPairs num_cameras radius base_height height_variation u
        look_at light_energy light_offset)[i - 1]? =
        some (add_camera_and_light (i - 1 + 1) (camAngle num_cameras (i - 1))
          radius base_height height_variation (u (i - 1)) look_at
          light_energy light_offset) := by
      unfold plannedPairs pyRange
      rw [List.getElem?_map, List.getElem?_range hlt]
      rfl
    refine ⟨_, hg, ?_⟩
    rw [add_camera_fst_location]
    unfold cameraLocation camAngle
    rw [Nat.cast_sub h1, Nat.cast_one]
  · intro j l hjl hl
    unfold camAngle
    have hn : (0 : ℝ) < (num_cameras : ℝ) := by
      exact_mod_cast (by omega : (0 : ℤ) < num_cameras)
    have hpos : (0 : ℝ) < 2 * Real.pi / (num_cameras : ℝ) :=
      div_pos (by positivity) hn
    exact mul_lt_mul_of_pos_right (by exact_mod_cast hjl) hpos
  · intro j
    unfold camAngle
    push_cast
    ring

/-- Witness for C1 at `count = 2`, `radius = 1`, `base_height = 0`,
`height_variation = 0`, the zero random source, origin look-at, energy `1000`
and offset `2`. -/
theorem c1_ring_placement_witness :
    (plannedPairs 2 1 0 0 (fun _ => 0) ⟨0, 0, 0⟩ 1000 2).length = (2 : ℤ).toNat
    ∧ (∀ i : ℕ, 1 ≤ i → (i : ℤ) ≤ 2 →
        ∃ pr, (plannedPairs 2 1 0 0 (fun _ => 0) ⟨0, 0, 0⟩ 1000 2)[i - 1]? =
            some pr ∧
          pr.1.location =
            ⟨1 * Real.cos (((i : ℝ) - 1) * (2 * Real.pi / ((2 : ℤ) : ℝ))),
             1 * Real.sin (((i : ℝ) - 1) * (2 * Real.pi / ((2 : ℤ) : ℝ))),
             0 + (fun _ => (0 : ℝ)) (i - 1)⟩)
    ∧ (∀ j l : ℕ, j < l → (l : ℤ) < 2 → camAngle 2 j < camAngle 2 l)
    ∧ (∀ j : ℕ, camAngle 2 (j + 1) - camAngle 2 j = 2 * Real.pi / ((2 : ℤ) : ℝ)) :=
  c1_ring_placement 2 (by norm_num) 1 0 0 (fun _ => 0)
    (fun i => ⟨le_refl 0, le_refl 0⟩) ⟨0, 0, 0⟩ 1000 2

/-- C5: every generated camera's height lies in
`[base_height, base_height + height_variation]`, and with
`height_variation = 0` every camera sits exactly at `base_height`. The
hypothesis on `u` is the range of `random.uniform(0, height_variation)` for
nonnegative `height_variation`. -/
theorem c5_height_invariant (num_cameras : ℤ)
    (radius base_height height_variation : ℝ) (u : ℕ → ℝ) (look_at : Vec3)
    (light_energy light_offset : ℝ) (hhv : 0 ≤ height_variation)
    (hu : ∀ i, 0 ≤ u i ∧ u i ≤ height_variation) :
    ∀ o ∈ newObjects num_cameras radius base_height height_variation u look_at
        light_energy light_offset, o.type = ObjType.CAMERA →
      base_height ≤ o.location.z ∧
      o.location.z ≤ base_height + height_variation ∧
      (height_variation = 0 → o.location.z = base_height) := by
  intro o ho htype
  unfold newObjects at ho
  rw [List.mem_flatMap] at ho
  obtain ⟨pr, hpr, hmem⟩ := ho
  unfold plannedPairs at hpr
  rw [List.mem_map] at hpr
  obtain ⟨i, hi, rfl⟩ := hpr
  simp only [List.mem_cons, List.not_mem_nil, or_false] at hmem
  rcases hmem with rfl | rfl
  · rw [add_camera_fst_location]
    obtain ⟨h0, h1⟩ := hu i
    unfold cameraLocation
    refine ⟨by simpa using h0, by simpa using h1, fun hz => ?_⟩
    have : u i = 0 := le_antisymm (hz ▸ h1) h0
    simp [this]
  · rw [add_camera_snd_type] at htype
    exact absurd htype (by simp)

/-- Witness for C5: the first camera of a two-camera run with
`height_variation = 0` and the zero random source sits exactly at the base
height. -/
theorem c5_height_invariant_witness :
    (0 : ℝ) ≤ (add_camera_and_light (0 + 1) (camAngle 2 0) 1 0 0
        ((fun _ => (0 : ℝ)) 0) ⟨0, 0, 0⟩ 1000 2).1.location.z ∧
    (add_camera_and_light (0 + 1) (camAngle 2 0) 1 0 0
        ((fun _ => (0 : ℝ)) 0) ⟨0, 0, 0⟩ 1000 2).1.location.z ≤ 0 + 0 ∧
    ((0 : ℝ) = 0 → (add_camera_and_light (0 + 1) (camAngle 2 0) 1 0 0
        ((fun _ => (0 : ℝ)) 0) ⟨0, 0, 0⟩ 1000 2).1.location.z = 0) :=
  c5_height_invariant 2 1 0 0 (fun _ => 0) ⟨0, 0, 0⟩ 1000 2 (le_refl 0)
    (fun _ => ⟨le_refl 0, le_refl 0⟩) _ (List.Mem.head _) rfl

/-- C7: with `num_cameras = 0` the run succeeds and appends nothing — the
scene after the run is exactly the (optionally cleaned) input scene, so zero
cameras and zero lights are created and the per-index angle division is never
reached — and a negative radius mirrors every planned position through the
center of the ring, leaving the height unchanged. -/
theorem c7_zero_count_and_negative_radius (cfg : Config) (u : ℕ → ℝ)
    (host : Host) (scene : List SceneObj) (h0 : cfg.num_cameras = 0) :
    (∃ s1, main cfg u host scene = Except.ok s1 ∧
        s1 = (if cfg.clean_scene then clean_scene scene else scene))
    ∧ (∀ angle radius base_height u0 : ℝ,
        cameraLocation angle (-radius) base_height u0 =
          ⟨-(cameraLocation angle radius base_height u0).x,
           -(cameraLocation angle radius base_height u0).y,
           (cameraLocation angle radius base_height u0).z⟩) := by
  constructor
  · obtain ⟨p, hp⟩ := determine_look_at_point_ok cfg host
    refine ⟨(if cfg.clean_scene then clean_scene scene else scene) ++
        newObjects cfg.num_cameras cfg.radius cfg.base_height
          cfg.height_variation u p cfg.light_energy cfg.light_offset,
      by unfold main; rw [hp]; rfl, ?_⟩
    have hempty : newObjects cfg.num_cameras cfg.radius cfg.base_height
        cfg.height_variation u p cfg.light_energy cfg.light_offset = [] := by
      rw [h0]; rfl
    rw [hempty, List.append_nil]
  · intro angle radius base_height u0
    unfold cameraLocation
    simp [Vec3.mk.injEq]

/-- Witness for C7 at the zero-camera configuration on a one-camera scene. -/
theorem c7_zero_count_witness :
    (∃ s1, main cfg0 (fun _ => 0) hostC [sceneCam] = Except.ok s1 ∧
        s1 = (if cfg0.clean_scene then clean_scene [sceneCam] else [sceneCam]))
    ∧ (∀ angle radius base_height u0 : ℝ,
        cameraLocation angle (-radius) base_height u0 =
          ⟨-(cameraLocation angle radius base_height u0).x,
           -(cameraLocation angle radius base_height u0).y,
           (cameraLocation angle radius base_height u0).z⟩) :=
  c7_zero_count_and_negative_radius cfg0 (fun _ => 0) hostC [sceneCam] rfl

/-- C9: for every negative `num_cameras` the run also succeeds and appends
nothing: Python's `range` over a negative bound is empty, so the loop body —
including its division by `num_cameras` — never executes. -/
theorem c9_negative_count (cfg : Config) (u : ℕ → ℝ) (host : Host)
    (scene : List SceneObj) (h0 : cfg.num_cameras < 0) :
    ∃ s1, main cfg u host scene = Except.ok s1 ∧
      s1 = (if cfg.clean_scene then clean_scene scene else scene) := by
  obtain ⟨p, hp⟩ := determine_look_at_point_ok cfg host
  refine ⟨(if cfg.clean_scene then clean_scene scene else scene) ++
      newObjects cfg.num_cameras cfg.radius cfg.base_height
        cfg.height_variation u p cfg.light_energy cfg.light_offset,
    by unfold main; rw [hp]; rfl, ?_⟩
  have htn : cfg.num_cameras.toNat = 0 := by omega
  have hempty : newObjects cfg.num_cameras cfg.radius cfg.base_height
      cfg.height_variation u p cfg.light_energy cfg.light_offset = [] := by
    unfold newObjects plannedPairs pyRange
    rw [htn]
    rfl
  rw [hempty, List.append_nil]

/-- Witness for C9 at `num_cameras = -5`. -/
theorem c9_negative_count_witness :
    ∃ s1, main cfgNeg (fun _ => 0) hostC [sceneCam] = Except.ok s1 ∧
      s1 = (if cfgNeg.clean_scene then clean_scene [sceneCam] else [sceneCam]) :=
  c9_negative_count cfgNeg (fun _ => 0) hostC [sceneCam] (by norm_num [cfgNeg])

/-- C8: the pair created by loop iteration `j` (0-based) is named
`Camera_<j+1>` and `Light_<j+1>`: names are deterministic, 1-based, and
increase in creation order. -/
theorem c8_deterministic_names (num_cameras : ℤ)
    (radius base_height height_variation : ℝ) (u : ℕ → ℝ) (look_at : Vec3)
    (light_energy light_offset : ℝ) :
    ∀ j : ℕ, (j : ℤ) < num_cameras →
      ∃ pr, (plannedPairs num_cameras radius base_height height_variation u
          look_at light_energy light_offset)[j]? = some pr ∧
        pr.1.name = "Camera_" ++ toString (j + 1) ∧
        pr.2.name = "Light_" ++ toString (j + 1) := by
  intro j hj
  have hlt : j < num_cameras.toNat := by omega
  refine ⟨add_camera_and_light (j + 1) (camAngle num_cameras j) radius
      base_height height_variation (u j) look_at light_energy light_offset,
    ?_, rfl, rfl⟩
  unfold plannedPairs pyRange
  rw [List.getElem?_map, List.getElem?_range hlt]
  rfl

/-- Witness for C8: the first pair of a two-camera run is `Camera_1`/`Light_1`. -/
theorem c8_deterministic_names_witness :
    ∃ pr, (plannedPairs 2 1 0 0 (fun _ => 0) ⟨0, 0, 0⟩ 1000 2)[0]? = some pr ∧
      pr.1.name = "Camera_" ++ toString (0 + 1) ∧
      pr.2.name = "Light_" ++ toString (0 + 1) :=
  c8_deterministic_names 2 1 0 0 (fun _ => 0) ⟨0, 0, 0⟩ 1000 2 0 (by norm_num)

theorem countType_append (t : ObjType) (a b : List SceneObj) :
    countType t (a ++ b) = countType t a + countType t b := by
  unfold countType
  rw [List.filter_append, List.length_append]

/-- Cleaning leaves no camera-type and no light-type object behind. -/
theorem countType_clean_scene (scene : List SceneObj) (t : ObjType)
    (ht : t = ObjType.CAMERA ∨ t = ObjType.LIGHT) :
    countType t (clean_scene scene) = 0 := by
  unfold countType clean_scene
  rw [List.filter_filter, List.length_eq_zero, List.filter_eq_nil_iff]
  intro a ha
  by_cases hc : a.type = t
  · rcases ht with rfl | rfl <;> simp [hc]
  · simp [hc]

/-- Counting cameras and lights in the flattened camera/light pairs. -/
theorem countType_flatMap_pairs (l : List (SceneObj × SceneObj))
    (hl : ∀ pr ∈ l, pr.1.type = ObjType.CAMERA ∧ pr.2.type = ObjType.LIGHT) :
    countType ObjType.CAMERA (l.flatMap fun pr => [pr.1, pr.2]) = l.length ∧
    countType ObjType.LIGHT (l.flatMap fun pr => [pr.1, pr.2]) = l.length := by
  induction l with
  | nil => exact ⟨rfl, rfl⟩
  | cons hd tl ih =>
    obtain ⟨h1, h2⟩ := hl hd (List.mem_cons_self hd tl)
    have iht := ih (fun pr hpr => hl pr (List.mem_cons_of_mem hd hpr))
    rw [List.flatMap_cons]
    constructor
    · rw [countType_append, iht.1, List.length_cons]
      have : countType ObjType.CAMERA [hd.1, hd.2] = 1 := by
        unfold countType
        simp [List.filter, h1, h2]
      omega
    · rw [countType_append, iht.2, List.length_cons]
      have : countType ObjType.LIGHT [hd.1, hd.2] = 1 := by
        unfold countType
        simp [List.filter, h1, h2]
      omega

/-- The loop appends exactly `num_cameras.toNat` cameras and as many lights. -/
theorem countType_newObjects (num_cameras : ℤ)
    (radius base_height height_variation : ℝ) (u : ℕ → ℝ) (look_at : Vec3)
    (light_energy light_offset : ℝ) :
    countType ObjType.CAMERA (newObjects num_cameras radius base_height
        height_variation u look_at light_energy light_offset) =
      num_cameras.toNat ∧
    countType ObjType.LIGHT (newObjects num_cameras radius base_height
        height_variation u look_at light_energy light_offset) =
      num_cameras.toNat := by
  unfold newObjects
  have hl : ∀ pr ∈ plannedPairs num_cameras radius base_height
      height_variation u look_at light_energy light_offset,
      pr.1.type = ObjType.CAMERA ∧ pr.2.type = ObjType.LIGHT := by
    intro pr hpr
    unfold plannedPairs at hpr
    rw [List.mem_map] at hpr
    obtain ⟨i, _, rfl⟩ := hpr
    exact ⟨rfl, rfl⟩
  have hc := countType_flatMap_pairs _ hl
  have hlen : (plannedPairs num_cameras radius base_height height_variation u
      look_at light_energy light_offset).length = num_cameras.toNat := by
    simp [plannedPairs, pyRange]
  exact ⟨by rw [hc.1, hlen], by rw [hc.2, hlen]⟩

/-- A run with `clean_scene` set succeeds and leaves exactly
`num_cameras.toNat` cameras and as many lights, whatever the input scene. -/
theorem main_ok_clean (cfg : Config) (u : ℕ → ℝ) (host : Host)
    (scene : List SceneObj) (hclean : cfg.clean_scene = true) :
    ∃ s1, main cfg u host scene = Except.ok s1 ∧
      countType ObjType.CAMERA s1 = cfg.num_cameras.toNat ∧
      countType ObjType.LIGHT s1 = cfg.num_cameras.toNat := by
  obtain ⟨p, hp⟩ := determine_look_at_point_ok cfg host
  refine ⟨(if cfg.clean_scene then clean_scene scene else scene) ++
      newObjects cfg.num_cameras cfg.radius cfg.base_height
        cfg.height_variation u p cfg.light_energy cfg.light_offset,
    by unfold main; rw [hp]; rfl, ?_, ?_⟩
  · rw [countType_append, if_pos hclean,
      countType_clean_scene scene ObjType.CAMERA (Or.inl rfl),
      (countType_newObjects cfg.num_cameras cfg.radius cfg.base_height
        cfg.height_variation u p cfg.light_energy cfg.light_offset).1,
      Nat.zero_add]
  · rw [countType_append, if_pos hclean,
      countType_clean_scene scene ObjType.LIGHT (Or.inr rfl),
      (countType_newObjects cfg.num_cameras cfg.radius cfg.base_height
        cfg.height_variation u p cfg.light_energy cfg.light_offset).2,
      Nat.zero_add]

/-- C6: with `clean_scene` set, pre-existing cameras and lights are purged
before the additions, and running the script twice in a row leaves the same
camera and light counts as running it once on a populated scene: exactly
`count` cameras and `count` lights remain either way. -/
theorem c6_clean_scene_idempotent (cfg : Config) (u u2 : ℕ → ℝ) (host : Host)
    (scene : List SceneObj) (hclean : cfg.clean_scene = true) :
    ∃ s1 s2, main cfg u host scene = Except.ok s1 ∧
      main cfg u2 host s1 = Except.ok s2 ∧
      countType ObjType.CAMERA s2 = countType ObjType.CAMERA s1 ∧
      countType ObjType.LIGHT s2 = countType ObjType.LIGHT s1 ∧
      countType ObjType.CAMERA s1 = cfg.num_cameras.toNat ∧
      countType ObjType.LIGHT s1 = cfg.num_cameras.toNat := by
  obtain ⟨s1, h1, hc1, hl1⟩ := main_ok_clean cfg u host scene hclean
  obtain ⟨s2, h2, hc2, hl2⟩ := main_ok_clean cfg u2 host s1 hclean
  exact ⟨s1, s2, h1, h2, by rw [hc2, hc1], by rw [hl2, hl1], hc1, hl1⟩

/-- Witness for C6 on a populated scene holding an old camera and a mesh. -/
theorem c6_clean_scene_idempotent_witness :
    ∃ s1 s2, main cfgNamed (fun _ => 0) hostC [sceneCam, sceneMesh] =
        Except.ok s1 ∧
      main cfgNamed (fun _ => 0) hostC s1 = Except.ok s2 ∧
      countType ObjType.CAMERA s2 = countType ObjType.CAMERA s1 ∧
      countType ObjType.LIGHT s2 = countType ObjType.LIGHT s1 ∧
      countType ObjType.CAMERA s1 = cfgNamed.num_cameras.toNat ∧
      countType ObjType.LIGHT s1 = cfgNamed.num_cameras.toNat :=
  c6_clean_scene_idempotent cfgNamed (fun _ => 0) (fun _ => 0) hostC
    [sceneCam, sceneMesh] rfl

/-- C10: `clean_scene` removes only camera-type and light-type objects: every
other object is still present afterwards, everything remaining was already in
the scene, and the per-type counts of all other types are unchanged. -/
theorem c10_clean_scene_frame (scene : List SceneObj) :
    (∀ o ∈ scene, o.type ≠ ObjType.CAMERA → o.type ≠ ObjType.LIGHT →
        o ∈ clean_scene scene)
    ∧ (∀ o ∈ clean_scene scene, o ∈ scene)
    ∧ (∀ t, t ≠ ObjType.CAMERA → t ≠ ObjType.LIGHT →
        countType t (clean_scene scene) = countType t scene) := by
  refine ⟨?_, ?_, ?_⟩
  · intro o ho h1 h2
    unfold clean_scene
    rw [List.mem_filter]
    exact ⟨ho, by simp [h1, h2]⟩
  · intro o ho
    unfold clean_scene at ho
    exact List.mem_of_mem_filter ho
  · intro t h1 h2
    unfold countType clean_scene
    rw [List.filter_filter]
    congr 1
    apply List.filter_congr
    intro a ha
    by_cases hc : a.type = t
    · simp [hc, h1, h2]
    · simp [hc]

/-- Witness for C10: a mesh object survives a clean next to an old camera. -/
theorem c10_clean_scene_frame_witness :
    sceneMesh ∈ clean_scene [sceneCam, sceneMesh] :=
  (c10_clean_scene_frame [sceneCam, sceneMesh]).1 sceneMesh (by simp)
    (by simp [sceneMesh]) (by simp [sceneMesh])

/-- C4: at the failing input — a camera at `(1, 0, 0)` looking at the origin
with `light_offset = 2` — the script places the light at `(3, 0, 0)`, which is
distance 2 *behind* the camera along its local `+Z` axis, not at
`P + d·forward = (−1, 0, 0)` in front of it as the claim (and the script's own
help text and comment) state; the parenting and energy parts of the claim do
hold. -/
theorem c4_light_placed_behind_camera :
    (add_camera_and_light 1 0 1 0 0 0 ⟨0, 0, 0⟩ 1000 2).2.location = ⟨3, 0, 0⟩
    ∧ (add_camera_and_light 1 0 1 0 0 0 ⟨0, 0, 0⟩ 1000 2).1.location +
        (2 : ℝ) • cameraForwardWorld ((⟨0, 0, 0⟩ : Vec3) -
          (add_camera_and_light 1 0 1 0 0 0 ⟨0, 0, 0⟩ 1000 2).1.location) =
        ⟨-1, 0, 0⟩
    ∧ ((⟨3, 0, 0⟩ : Vec3) ≠ ⟨-1, 0, 0⟩)
    ∧ (add_camera_and_light 1 0 1 0 0 0 ⟨0, 0, 0⟩ 1000 2).2.parent =
        some ((add_camera_and_light 1 0 1 0 0 0 ⟨0, 0, 0⟩ 1000 2).1.name)
    ∧ (add_camera_and_light 1 0 1 0 0 0 ⟨0, 0, 0⟩ 1000 2).2.energy = 1000 := by
  have hpos : cameraLocation 0 1 0 0 = ⟨1, 0, 0⟩ := by
    unfold cameraLocation
    simp
  have hdir : (⟨0, 0, 0⟩ : Vec3) - cameraLocation 0 1 0 0 = ⟨-1, 0, 0⟩ := by
    rw [hpos]
    simp [Vec3.sub_def]
  have hnorm : Vec3.norm ⟨-1, 0, 0⟩ = 1 := by
    unfold Vec3.norm
    norm_num
  have hnormd : Vec3.normalized ⟨-1, 0, 0⟩ = ⟨-1, 0, 0⟩ := by
    unfold Vec3.normalized
    rw [hnorm]
    simp [Vec3.smul_def]
  refine ⟨?_, ?_, ?_, rfl, rfl⟩
  · rw [add_camera_snd_location, hdir, hpos]
    unfold trackQuatLocalZWorld
    rw [hnormd]
    simp [Vec3.add_def, Vec3.smul_def, Vec3.neg_def]
    norm_num [Vec3.mk.injEq]
  · rw [add_camera_fst_location, hdir, hpos]
    unfold cameraForwardWorld
    rw [hnormd]
    simp [Vec3.add_def, Vec3.smul_def, Vec3.neg_def]
    norm_num [Vec3.mk.injEq]
  · intro h
    have := congrArg Vec3.x h
    norm_num at this

end BlenderCameraPlacement
